import Mathlib

/-!
Verification of the resumable Minervini scan engine.

Shallow embedding of the repository's core components:
* `src/src/minervini_screener.py` — `MinerviniScreener` (trend-template
  evaluator and stock scan),
* `src/render_bot.py` — chunked scan orchestrator (`run_chunked_scan`,
  `add_to_scan_results` and the persisted checkpoint/result files),
* `src/src/alerts.py` — `AlertManager` (cooldown-gated notifications),
* `src/config/config.py` — screening thresholds.

Prices and timestamps are modelled as rationals; machine floats of the
source are idealised as exact arithmetic.  Fallible operations return
`Option`; per-symbol exceptions of the Python code are explicit
`SymbolOutcome` values.
-/

namespace Minervini

/-! ### Configuration constants (src/config/config.py) -/

/-- `MIN_PERCENT_ABOVE_52W_LOW = 30` (config.py line 28). -/
def MIN_PERCENT_ABOVE_52W_LOW : ℚ := 30

/-- `MAX_PERCENT_FROM_52W_HIGH = 25` (config.py line 29). -/
def MAX_PERCENT_FROM_52W_HIGH : ℚ := 25

/-- `MIN_200_SMA_UPTREND_DAYS = 22` (config.py line 30). -/
def MIN_200_SMA_UPTREND_DAYS : ℕ := 22

/-- `ALERT_COOLDOWN_HOURS = 24` (config.py line 48). -/
def ALERT_COOLDOWN_HOURS : ℚ := 24

/-- `CHUNK_SIZE = 30` (render_bot.py line 35). -/
def CHUNK_SIZE : ℕ := 30

/-! ### Stock info and evaluation result (minervini_screener.py) -/

/-- The per-symbol info dict produced by the data fetcher and consumed by
`check_trend_template` (minervini_screener.py lines 125-130): current price,
the three SMAs (each possibly absent), the 52-week range and volume data. -/
structure StockInfo where
  name : String
  current_price : ℚ
  sma_50 : Option ℚ
  sma_150 : Option ℚ
  sma_200 : Option ℚ
  week_52_high : ℚ
  week_52_low : ℚ
  volume : ℚ
  avg_volume_20d : ℚ
  deriving Repr, DecidableEq

/-- `TrendTemplateResult` (minervini_screener.py lines 24-44).  The Python
`criteria` dict preserves insertion order, so it is modelled as an ordered
list of 9 booleans; the `metrics` dict is flattened into named fields.
`pct_above_52w_low` / `pct_from_52w_high` carry the values stored in
`metrics`, i.e. rounded to two decimals (lines 166-167). -/
structure TrendTemplateResult where
  symbol : String
  name : String
  passes_all : Bool
  current_price : ℚ
  criteria : List Bool
  score : ℕ
  pct_above_52w_low : ℚ
  pct_from_52w_high : ℚ
  sma_50 : ℚ
  sma_150 : ℚ
  sma_200 : ℚ
  week_52_high : ℚ
  week_52_low : ℚ
  deriving Repr, DecidableEq

/-- Python's `round` to 0 decimals on an exact rational: round half to even
(banker's rounding), otherwise to the nearest integer. -/
def pyRoundInt (q : ℚ) : ℤ :=
  if q - ⌊q⌋ = 1/2 then (if 2 ∣ ⌊q⌋ then ⌊q⌋ else ⌊q⌋ + 1) else round q

/-- Python's `round(x, 2)` (minervini_screener.py lines 166-167). -/
def round2 (q : ℚ) : ℚ := (pyRoundInt (q * 100) : ℚ) / 100

/-- The pandas rolling mean `prices.rolling(window=period).mean()` evaluated
at 0-based index `i` (valid, i.e. non-NaN, when `period ≤ i + 1`): the mean
of `prices[i+1-period : i+1]`. -/
def smaAt (prices : List ℚ) (period i : ℕ) : ℚ :=
  (((prices.take (i + 1)).drop (i + 1 - period)).sum) / (period : ℚ)

/-- `MinerviniScreener.is_sma_trending_up` (minervini_screener.py lines
79-98): false when the series is shorter than `lookback + period`, else
compares the last rolling-SMA value (`iloc[-1]`) with the value `lookback`
sessions earlier (`iloc[-(lookback+1)]`, index `len - 1 - lookback`). -/
def is_sma_trending_up (prices : List ℚ) (sma_period lookback : ℕ) : Bool :=
  if prices.length < lookback + sma_period then false
  else decide (smaAt prices sma_period (prices.length - 1) >
               smaAt prices sma_period (prices.length - 1 - lookback))

/-- The nine criteria of `check_trend_template` (minervini_screener.py lines
142-152), in source order. -/
def criteriaList (info : StockInfo) (hist : List ℚ)
    (sma50 sma150 sma200 : ℚ) : List Bool :=
  [ decide (info.current_price > sma150),
    decide (info.current_price > sma200),
    decide (sma150 > sma200),
    is_sma_trending_up hist 200 MIN_200_SMA_UPTREND_DAYS,
    decide (sma50 > sma150),
    decide (sma50 > sma200),
    decide (info.current_price > sma50),
    decide (((info.current_price - info.week_52_low) / info.week_52_low) * 100
              ≥ MIN_PERCENT_ABOVE_52W_LOW),
    decide (((info.week_52_high - info.current_price) / info.week_52_high) * 100
              ≤ MAX_PERCENT_FROM_52W_HIGH) ]

/-- The `TrendTemplateResult` built at minervini_screener.py lines 154-180:
`score = sum(criteria.values())`, `passes_all = all(criteria.values())`,
metrics percentages rounded to two decimals. -/
def buildResult (symbol : String) (info : StockInfo) (hist : List ℚ)
    (sma50 sma150 sma200 : ℚ) : TrendTemplateResult :=
  { symbol := symbol
    name := info.name
    passes_all := (criteriaList info hist sma50 sma150 sma200).all id
    current_price := info.current_price
    criteria := criteriaList info hist sma50 sma150 sma200
    score := (criteriaList info hist sma50 sma150 sma200).count true
    pct_above_52w_low :=
      round2 (((info.current_price - info.week_52_low) / info.week_52_low) * 100)
    pct_from_52w_high :=
      round2 (((info.week_52_high - info.current_price) / info.week_52_high) * 100)
    sma_50 := sma50
    sma_150 := sma150
    sma_200 := sma200
    week_52_high := info.week_52_high
    week_52_low := info.week_52_low }

/-- `MinerviniScreener.check_trend_template` (minervini_screener.py lines
100-180), given the fetched info dict and the `Close` history.  Returns
`none` when fewer than 200 sessions of history are available (line 118) or
any SMA is missing (line 133); otherwise evaluates the nine criteria. -/
def check_trend_template (symbol : String) (info : StockInfo)
    (hist : List ℚ) : Option TrendTemplateResult :=
  if hist.length < 200 then none
  else
    match info.sma_50, info.sma_150, info.sma_200 with
    | some sma50, some sma150, some sma200 =>
        some (buildResult symbol info hist sma50 sma150 sma200)
    | _, _, _ => none

/-! ### Stock scan (minervini_screener.py lines 182-211) -/

/-- The observable outcome of `check_trend_template(symbol)` inside the
`scan_stocks` loop: a result, `None`, or a raised exception (caught at
minervini_screener.py lines 204-206). -/
inductive SymbolOutcome where
  | ok : TrendTemplateResult → SymbolOutcome
  | noResult : SymbolOutcome
  | err : String → SymbolOutcome
  deriving Repr, DecidableEq

/-- Whether the outcome is a successful evaluation. -/
def SymbolOutcome.isOk : SymbolOutcome → Bool
  | .ok _ => true
  | _ => false

/-- The `for` loop of `scan_stocks` (minervini_screener.py lines 196-206):
every symbol is logged (`logger.info` on line 197, the first component);
a successful result with `score >= min_score` is appended; a `None` result
is skipped; an exception is logged and skipped (`continue`). -/
def scanFold (f : String → SymbolOutcome) (minScore : ℕ) :
    List String → List String × List TrendTemplateResult
  | [] => ([], [])
  | s :: rest =>
    let p := scanFold f minScore rest
    match f s with
    | .ok r => (s :: p.1, if minScore ≤ r.score then r :: p.2 else p.2)
    | .noResult => (s :: p.1, p.2)
    | .err _ => (s :: p.1, p.2)

/-- The sort order of `scan_stocks` (minervini_screener.py line 209):
`results.sort(key=lambda x: (x.score, -x.metrics["pct_from_52w_high"]),
reverse=True)` — descending lexicographic on the pair, i.e. `a` precedes or
ties `b` when `a` has the larger score, or equal scores and `a`'s stored
(2-decimal-rounded) percent-from-high metric is no larger. -/
def resultBefore (a b : TrendTemplateResult) : Prop :=
  b.score < a.score ∨ (a.score = b.score ∧ a.pct_from_52w_high ≤ b.pct_from_52w_high)

instance : DecidableRel resultBefore := fun a b => by
  unfold resultBefore; infer_instance

instance : IsTotal TrendTemplateResult resultBefore where
  total a b := by
    unfold resultBefore
    rcases lt_trichotomy a.score b.score with h | h | h
    · exact Or.inr (Or.inl h)
    · rcases le_total a.pct_from_52w_high b.pct_from_52w_high with h' | h'
      · exact Or.inl (Or.inr ⟨h, h'⟩)
      · exact Or.inr (Or.inr ⟨h.symm, h'⟩)
    · exact Or.inl (Or.inl h)

instance : IsTrans TrendTemplateResult resultBefore where
  trans a b c hab hbc := by
    unfold resultBefore at *
    rcases hab with h1 | ⟨h1, h1'⟩ <;> rcases hbc with h2 | ⟨h2, h2'⟩
    · exact Or.inl (h2.trans h1)
    · exact Or.inl (h2 ▸ h1)
    · exact Or.inl (h1 ▸ h2)
    · exact Or.inr ⟨h1.trans h2, h1'.trans h2'⟩

/-- `MinerviniScreener.scan_stocks` (minervini_screener.py lines 182-211):
collect qualifying results over the symbol list, then sort by
`(score, -pct_from_52w_high)` descending.  Python's sort is stable, as is
`List.insertionSort`, so ties keep their evaluation order in both. -/
def scan_stocks (f : String → SymbolOutcome) (symbols : List String)
    (minScore : ℕ) : List TrendTemplateResult :=
  List.insertionSort resultBefore (scanFold f minScore symbols).2

/-! ### Persisted scan state and results (render_bot.py) -/

/-- The checkpoint dict written by `save_scan_state` (render_bot.py lines
232-238); `stopped` is absent (false) when written by the loop and set to
true by `/stop` (line 588). -/
structure Checkpoint where
  scan_type : String
  offset : ℕ
  total : ℕ
  started_at : String
  chat_id : ℕ
  stopped : Bool
  deriving Repr, DecidableEq

/-- One entry of the `stocks` list in the results file (render_bot.py lines
245-251). -/
structure StockData where
  symbol : String
  name : String
  price : ℚ
  score : ℕ
  found_at : String
  deriving Repr, DecidableEq

/-- The scan-results document (render_bot.py line 127). -/
structure ScanResults where
  stocks : List StockData
  scan_type : Option String
  completed_at : Option String
  total_scanned : ℕ
  deriving Repr, DecidableEq

/-- The default results document returned by `load_scan_results` when no
file exists (render_bot.py line 127). -/
def defaultResults : ScanResults := ⟨[], none, none, 0⟩

/-- The fresh results document written on a new scan (render_bot.py lines
145 and 209). -/
def emptyResults (scanType : String) : ScanResults :=
  ⟨[], some scanType, none, 0⟩

/-- `add_to_scan_results` (render_bot.py lines 139-153): reset the document
when the stored scan type differs from the argument, then append the stock
only if its symbol is not already present. -/
def add_to_scan_results (stock : StockData) (scanType : String)
    (results : ScanResults) : ScanResults :=
  let r := if results.scan_type ≠ some scanType then emptyResults scanType
           else results
  if stock.symbol ∈ r.stocks.map (·.symbol) then r
  else { r with stocks := r.stocks ++ [stock] }

/-- The `stock_data` dict built from a result inside the chunk loop
(render_bot.py lines 245-251). -/
def toStockData (now : String) (r : TrendTemplateResult) : StockData :=
  ⟨r.symbol, r.name, r.current_price, r.score, now⟩

/-! ### Chunked scan orchestrator (render_bot.py lines 178-320)

The loop is a pure function of: the per-symbol evaluation oracle `f`
(the `screener.scan_stocks` collaborator), the stock universe, the scan
type, the recipient chat id, a timestamp `now`, and `stopAfter` — whether
an external `/stop` request has set the checkpoint's `stopped` flag by the
time the chunk starting at a given offset finishes (render_bot.py lines
270-281).  Notifications are not modelled. -/

/-- Ambient inputs of one chunked-scan run. -/
structure ScanCtx where
  f : String → SymbolOutcome
  stocks : List String
  scan_type : String
  started_at : String
  now : String
  chat_id : ℕ
  stopAfter : ℕ → Bool

/-- Observable outcome of the `while offset < total` loop (render_bot.py
lines 226-295): whether it exited via the stopped check, the results file,
the state file, the trace of checkpoints written at the top of each
iteration, the trace of `(offset, chunk length)` pairs, and the value of
`offset` when the loop ends. -/
structure LoopOut where
  stoppedEarly : Bool
  results : ScanResults
  stateFile : Option Checkpoint
  checkpoints : List Checkpoint
  chunks : List (ℕ × ℕ)
  finalOffset : ℕ
  deriving Repr, DecidableEq

/-- The chunk loop (render_bot.py lines 226-295).  Each iteration slices
`stocks[offset : offset+CHUNK_SIZE]`, persists the checkpoint, scans the
chunk with `min_score=9`, appends each found stock, advances `offset` by
`CHUNK_SIZE` (line 268), and exits early when the re-loaded state has
`stopped` set. -/
def scanLoop (ctx : ScanCtx) (offset : ℕ) (res : ScanResults) : LoopOut :=
  if _h : offset < ctx.stocks.length then
    let chunk := (ctx.stocks.drop offset).take CHUNK_SIZE
    let cp : Checkpoint :=
      ⟨ctx.scan_type, offset, ctx.stocks.length, ctx.started_at, ctx.chat_id, false⟩
    let found := scan_stocks ctx.f chunk 9
    let res1 := found.foldl
      (fun acc r => add_to_scan_results (toStockData ctx.now r) ctx.scan_type acc) res
    let offset1 := offset + CHUNK_SIZE
    if ctx.stopAfter offset then
      ⟨true, res1, some { cp with stopped := true },
        [cp], [(offset, chunk.length)], offset1⟩
    else
      let rest := scanLoop ctx offset1 res1
      ⟨rest.stoppedEarly, rest.results, rest.stateFile,
        cp :: rest.checkpoints, (offset, chunk.length) :: rest.chunks,
        rest.finalOffset⟩
  else ⟨false, res, none, [], [], offset⟩
termination_by ctx.stocks.length - offset
decreasing_by simp only [CHUNK_SIZE]; omega

/-- Final observable state of `run_chunked_scan`. -/
structure RunOut where
  returned : Bool
  stateFile : Option Checkpoint
  resultsFile : ScanResults
  checkpoints : List Checkpoint
  chunks : List (ℕ × ℕ)
  finalOffset : ℕ
  deriving Repr, DecidableEq

/-- `run_chunked_scan` (render_bot.py lines 178-320).  Rejects immediately
when `is_scanning` is set (lines 182-185, returning `False` and touching no
state).  Otherwise: resume from the persisted checkpoint when its scan type
matches and its offset is below the total (lines 201-204), else start a
fresh scan at offset 0 after resetting the results file (lines 206-209);
run the chunk loop; on normal completion stamp `completed_at` and
`total_scanned` and clear the state file (lines 297-302). -/
def run_chunked_scan (isScanning : Bool) (f : String → SymbolOutcome)
    (stocks : List String) (scanType : String) (chatId : ℕ) (now : String)
    (stopAfter : ℕ → Bool) (stateFile : Option Checkpoint)
    (resultsFile : ScanResults) : RunOut :=
  if isScanning then ⟨false, stateFile, resultsFile, [], [], 0⟩
  else
    let total := stocks.length
    let init : ℕ × ScanResults :=
      match stateFile with
      | some st =>
          if st.scan_type = scanType ∧ st.offset < total then (st.offset, resultsFile)
          else (0, emptyResults scanType)
      | none => (0, emptyResults scanType)
    let startedAt : String :=
      match stateFile with
      | some st => st.started_at
      | none => now
    let ctx : ScanCtx := ⟨f, stocks, scanType, startedAt, now, chatId, stopAfter⟩
    let out := scanLoop ctx init.1 init.2
    if out.stoppedEarly then
      ⟨true, out.stateFile, out.results, out.checkpoints, out.chunks, out.finalOffset⟩
    else
      ⟨true, none,
        { out.results with completed_at := some now, total_scanned := total },
        out.checkpoints, out.chunks, out.finalOffset⟩

/-- The chunk start offsets the loop visits: `offset, offset+30, …` while
below `total`. -/
def chunkStarts (total offset : ℕ) : List ℕ :=
  if offset < total then offset :: chunkStarts total (offset + CHUNK_SIZE) else []
termination_by total - offset
decreasing_by simp only [CHUNK_SIZE]; omega

/-! ### Alert manager (src/src/alerts.py) -/

/-- One value of the alert-history map (alerts.py lines 90-94). -/
structure AlertRecord where
  last_alert : ℚ
  alert_count : ℕ
  details : String
  deriving Repr, DecidableEq

/-- The alert-history JSON document: a symbol-keyed map, modelled as an
insertion-ordered association list. -/
def AlertHistory := List (String × AlertRecord)

/-- Python dict lookup `history[symbol]` / `symbol in history`. -/
def dictGet : AlertHistory → String → Option AlertRecord
  | [], _ => none
  | (k, v) :: rest, s => if k = s then some v else dictGet rest s

/-- Python dict assignment `history[symbol] = record`: replace in place if
the key exists, else append. -/
def dictSet : AlertHistory → String → AlertRecord → AlertHistory
  | [], s, r => [(s, r)]
  | (k, v) :: rest, s, r =>
      if k = s then (s, r) :: rest else (k, v) :: dictSet rest s r

/-- `AlertManager.should_alert` (alerts.py lines 59-78): true when the
symbol has no record, or strictly more than `cooldownHours` have elapsed
since its last alert. -/
def should_alert (cooldownHours : ℚ) (now : ℚ) (history : AlertHistory)
    (symbol : String) : Bool :=
  match dictGet history symbol with
  | none => true
  | some r => decide (now - r.last_alert > cooldownHours)

/-- `AlertManager.record_alert` (alerts.py lines 80-97): upsert the record
with `last_alert = now` and `alert_count` incremented from 0. -/
def record_alert (now : ℚ) (history : AlertHistory) (symbol : String)
    (details : String) : AlertHistory :=
  dictSet history symbol
    ⟨now, (match dictGet history symbol with
           | some r => r.alert_count
           | none => 0) + 1, details⟩


/-! ### Concrete instances used in the theorems below -/

/-- Concrete witness for C6: a one-element result set for scan type
`scanall` absorbs a re-append of the same symbol. -/
def stockW : StockData := ⟨"ABB", "ABB India", 10, 9, "t"⟩

/-- A stored result set already holding `stockW` for scan type `scanall`. -/
def resW : ScanResults := ⟨[stockW], some "scanall", none, 0⟩

/-- A 100-symbol universe. -/
def stocks100 : List String := List.replicate 100 "S"

/-- An evaluation oracle under which no symbol yields a result. -/
def skipF : String → SymbolOutcome := fun _ => SymbolOutcome.noResult

/-- No external stop request. -/
def noStop : ℕ → Bool := fun _ => false

/-- A checkpoint persisted (before evaluating the chunk at offset 60) by a
crashed `scanall` run over 100 symbols. -/
def stW60 : Checkpoint := ⟨"scanall", 60, 100, "t0", 7, false⟩

/-- 222 sessions of closes: 200 × 88, then 21 × 106, then 110. -/
def hist222 : List ℚ := List.replicate 200 88 ++ (List.replicate 21 106 ++ [110])

/-- The scenario snapshot of the spec: price 110, SMAs 100/95/90, 52-week
range 80–120. -/
def infoA : StockInfo := ⟨"A Corp", 110, some 100, some 95, some 90, 120, 80, 0, 0⟩

/-- A second snapshot differing only in price: 110.002. -/
def infoB : StockInfo :=
  ⟨"B Corp", 55001/500, some 100, some 95, some 90, 120, 80, 0, 0⟩

/-- A 200-session history: long enough to evaluate, too short for the
22-session lookback of criterion 4. -/
def hist200 : List ℚ := List.replicate 200 88

/-- Wrap the outcome of `check_trend_template` for the scan loop. -/
def outcomeOf : Option TrendTemplateResult → SymbolOutcome
  | some r => SymbolOutcome.ok r
  | none => SymbolOutcome.noResult

/-- A two-symbol universe evaluated with the real evaluator: `A` at price
110 and `B` at price 110.002, both against `hist222` and the 80–120
52-week range. -/
def oracleAB : String → SymbolOutcome := fun s =>
  if s = "A" then outcomeOf (check_trend_template "A" infoA hist222)
  else if s = "B" then outcomeOf (check_trend_template "B" infoB hist222)
  else SymbolOutcome.noResult

/-- The claim's tie-break key: the (unrounded) percent distance of a result
from its 52-week high. -/
def specPctFromHigh (r : TrendTemplateResult) : ℚ :=
  ((r.week_52_high - r.current_price) / r.week_52_high) * 100

/-- The evaluation of symbol `A`. -/
def resultA : TrendTemplateResult := buildResult "A" infoA hist222 100 95 90

/-- The evaluation of symbol `B`. -/
def resultB : TrendTemplateResult := buildResult "B" infoB hist222 100 95 90

/-! ### Helper lemmas -/
@[simp] lemma SymbolOutcome.isOk_ok (r : TrendTemplateResult) :
    (SymbolOutcome.ok r).isOk = true := rfl

@[simp] lemma SymbolOutcome.isOk_noResult :
    (SymbolOutcome.noResult).isOk = false := rfl

@[simp] lemma SymbolOutcome.isOk_err (e : String) :
    (SymbolOutcome.err e).isOk = false := rfl

lemma dictGet_dictSet (h : AlertHistory) (s : String) (r : AlertRecord) :
    dictGet (dictSet h s r) s = some r := by
  induction h with
  | nil => simp [dictSet, dictGet]
  | cons p rest ih =>
    obtain ⟨k, v⟩ := p
    by_cases hk : k = s
    · simp [dictSet, hk, dictGet]
    · simp [dictSet, hk, dictGet, ih]

/-! ### C1 — evaluate fails iff insufficient data -/

/-- C1.  `check_trend_template` returns no result exactly when the history
has fewer than 200 sessions or one of the three SMAs is absent; for every
snapshot with at least 200 sessions and all three SMAs present it returns a
`TrendTemplateResult`. -/
theorem evaluate_none_iff_insufficient_data (symbol : String)
    (info : StockInfo) (hist : List ℚ) :
    check_trend_template symbol info hist = none ↔
      (hist.length < 200 ∨ info.sma_50 = none ∨ info.sma_150 = none ∨
        info.sma_200 = none) := by
  unfold check_trend_template
  split_ifs with h
  · simp [h]
  · rcases h50 : info.sma_50 with _ | s50 <;>
      rcases h150 : info.sma_150 with _ | s150 <;>
      rcases h200 : info.sma_200 with _ | s200 <;>
      simp [h]

/-! ### C5 — single-flight start guard -/

/-- C5.  Calling the chunked scan while any scan is active anywhere in the
process (`is_scanning` set, regardless of the requested scan type) returns
`False` immediately and leaves the checkpoint file and the result file
exactly as they were: no chunk is processed and no state is written. -/
theorem start_rejected_while_running (f : String → SymbolOutcome)
    (stocks : List String) (scanType : String) (chatId : ℕ) (now : String)
    (stopAfter : ℕ → Bool) (stateFile : Option Checkpoint)
    (resultsFile : ScanResults) :
    run_chunked_scan true f stocks scanType chatId now stopAfter stateFile
        resultsFile = ⟨false, stateFile, resultsFile, [], [], 0⟩ := rfl

/-! ### C8 — alert cooldown -/

/-- C8.  `should_alert` is true iff no record exists for the symbol or
strictly more than the cooldown (default 24h) has elapsed since its last
alert; after `record_alert` at `t0` it is false at `t0 + 1` and true at
`t0 + 25`. -/
theorem should_alert_cooldown (history : AlertHistory) (t0 : ℚ)
    (symbol details : String) (now : ℚ) (hh : AlertHistory) :
    (should_alert ALERT_COOLDOWN_HOURS now hh symbol = true ↔
      (dictGet hh symbol = none ∨
        ∃ r, dictGet hh symbol = some r ∧
          now - r.last_alert > ALERT_COOLDOWN_HOURS)) ∧
    should_alert ALERT_COOLDOWN_HOURS (t0 + 1)
        (record_alert t0 history symbol details) symbol = false ∧
    should_alert ALERT_COOLDOWN_HOURS (t0 + 25)
        (record_alert t0 history symbol details) symbol = true := by
  refine ⟨?_, ?_, ?_⟩
  · unfold should_alert
    rcases h : dictGet hh symbol with _ | r
    · simp
    · simp [h]
  · unfold should_alert record_alert
    rw [dictGet_dictSet]
    simp only [decide_eq_false_iff_not, not_lt, gt_iff_lt]
    rw [ALERT_COOLDOWN_HOURS]
    norm_num
  · unfold should_alert record_alert
    rw [dictGet_dictSet]
    simp only [decide_eq_true_eq, gt_iff_lt]
    rw [ALERT_COOLDOWN_HOURS]
    norm_num

/-! ### C6 — ResultStore append is idempotent and unique by symbol -/

/-- C6.  `add_to_scan_results` is a no-op when the symbol is already
present for the same scan type, appending the same summary twice equals
appending it once, and the stored stock list never acquires a duplicate
symbol. -/
theorem append_unique_idempotent (res : ScanResults) (scanType : String)
    (stock : StockData) :
    (res.scan_type = some scanType →
        stock.symbol ∈ res.stocks.map (·.symbol) →
        add_to_scan_results stock scanType res = res) ∧
    add_to_scan_results stock scanType (add_to_scan_results stock scanType res) =
        add_to_scan_results stock scanType res ∧
    ((res.stocks.map (·.symbol)).Nodup →
        ((add_to_scan_results stock scanType res).stocks.map (·.symbol)).Nodup) := by
  refine ⟨?_, ?_, ?_⟩
  · intro hty hmem
    unfold add_to_scan_results
    simp [hty, hmem]
  · by_cases hty : res.scan_type = some scanType
    · by_cases hmem : stock.symbol ∈ res.stocks.map (·.symbol)
      · unfold add_to_scan_results
        simp [hty, hmem]
      · unfold add_to_scan_results
        simp [hty, hmem]
    · unfold add_to_scan_results
      simp [hty, emptyResults]
  · intro hnd
    by_cases hty : res.scan_type = some scanType
    · by_cases hmem : stock.symbol ∈ res.stocks.map (·.symbol)
      · unfold add_to_scan_results
        simpa [hty, hmem] using hnd
      · unfold add_to_scan_results
        simp [hty, hmem, hnd, List.nodup_append, List.disjoint_singleton]
    · unfold add_to_scan_results
      simp [hty, emptyResults]

/-- Witness for C6 at a concrete store and summary. -/
theorem append_unique_idempotent_witness :
    add_to_scan_results stockW "scanall" resW = resW ∧
    add_to_scan_results stockW "scanall" (add_to_scan_results stockW "scanall" resW) =
        add_to_scan_results stockW "scanall" resW ∧
    ((add_to_scan_results stockW "scanall" resW).stocks.map (·.symbol)).Nodup := by
  have h := append_unique_idempotent resW "scanall" stockW
  exact ⟨h.1 rfl (by simp [resW, stockW]), h.2.1, h.2.2 (by simp [resW, stockW])⟩

/-! ### Chunk-loop lemmas -/

/-- With no external stop request, the loop runs to completion: it never
pauses, clears no state of its own, writes one checkpoint per chunk start,
processes chunks of length `min CHUNK_SIZE (total - offset)`, and ends with
`offset` advanced by `CHUNK_SIZE` once per chunk. -/
lemma scanLoop_no_stop (ctx : ScanCtx) (hstop : ∀ o, ctx.stopAfter o = false) :
    ∀ k offset res, ctx.stocks.length - offset = k →
      (scanLoop ctx offset res).stoppedEarly = false ∧
      (scanLoop ctx offset res).stateFile = none ∧
      (scanLoop ctx offset res).checkpoints =
        (chunkStarts ctx.stocks.length offset).map
          (fun o => ⟨ctx.scan_type, o, ctx.stocks.length, ctx.started_at,
                     ctx.chat_id, false⟩) ∧
      (scanLoop ctx offset res).chunks =
        (chunkStarts ctx.stocks.length offset).map
          (fun o => (o, min CHUNK_SIZE (ctx.stocks.length - o))) ∧
      (scanLoop ctx offset res).finalOffset =
        offset + CHUNK_SIZE * (chunkStarts ctx.stocks.length offset).length := by
  intro k
  induction k using Nat.strong_induction_on with
  | _ k ih =>
    intro offset res hk
    by_cases h : offset < ctx.stocks.length
    · have hlt : ctx.stocks.length - (offset + CHUNK_SIZE) < k := by
        simp only [CHUNK_SIZE]; omega
      have hrec := ih _ hlt (offset + CHUNK_SIZE)
        ((scan_stocks ctx.f ((ctx.stocks.drop offset).take CHUNK_SIZE) 9).foldl
          (fun acc r =>
            add_to_scan_results (toStockData ctx.now r) ctx.scan_type acc) res)
        rfl
      rw [scanLoop, chunkStarts]
      simp only [dif_pos h, if_pos h, hstop offset, Bool.false_eq_true,
        if_false, List.map_cons, List.length_cons]
      refine ⟨hrec.1, hrec.2.1, ?_, ?_, ?_⟩
      · rw [hrec.2.2.1]
      · rw [hrec.2.2.2.1]
        simp [List.length_take, List.length_drop]
      · rw [hrec.2.2.2.2]
        ring
    · rw [scanLoop, chunkStarts]
      simp [h]

/-- A scan over an oracle that finds nothing logs every symbol and collects
no results. -/
lemma scanFold_skip (f : String → SymbolOutcome)
    (hf : ∀ s, f s = SymbolOutcome.noResult) (m : ℕ) :
    ∀ l, scanFold f m l = (l, []) := by
  intro l
  induction l with
  | nil => rfl
  | cons s rest ih => simp [scanFold, hf s, ih]

/-- `scan_stocks` over a nothing-found oracle returns the empty list. -/
lemma scan_stocks_skip (f : String → SymbolOutcome)
    (hf : ∀ s, f s = SymbolOutcome.noResult) (l : List String) (m : ℕ) :
    scan_stocks f l m = [] := by
  simp [scan_stocks, scanFold_skip f hf, List.insertionSort]

/-- The chunk loop leaves the results file untouched when no symbol ever
qualifies. -/
lemma scanLoop_results_skip (ctx : ScanCtx)
    (hf : ∀ s, ctx.f s = SymbolOutcome.noResult) :
    ∀ k offset res, ctx.stocks.length - offset = k →
      (scanLoop ctx offset res).results = res := by
  intro k
  induction k using Nat.strong_induction_on with
  | _ k ih =>
    intro offset res hk
    by_cases h : offset < ctx.stocks.length
    · have hlt : ctx.stocks.length - (offset + CHUNK_SIZE) < k := by
        simp only [CHUNK_SIZE]; omega
      rw [scanLoop]
      simp only [dif_pos h, scan_stocks_skip ctx.f hf, List.foldl_nil]
      by_cases hs : ctx.stopAfter offset
      · simp [hs]
      · simp only [hs, Bool.false_eq_true, if_false]
        exact ih _ hlt (offset + CHUNK_SIZE) res rfl
    · rw [scanLoop]
      simp [h]

/-- The chunk trace, checkpoint trace, final offset and early-stop flag of
the loop depend only on the universe and the stop schedule, not on the
evaluation oracle or the incoming results file. -/
lemma scanLoop_trace_indep (ctx : ScanCtx) (g : String → SymbolOutcome) :
    ∀ k offset res res', ctx.stocks.length - offset = k →
      (scanLoop ctx offset res).chunks =
        (scanLoop { ctx with f := g } offset res').chunks ∧
      (scanLoop ctx offset res).checkpoints =
        (scanLoop { ctx with f := g } offset res').checkpoints ∧
      (scanLoop ctx offset res).finalOffset =
        (scanLoop { ctx with f := g } offset res').finalOffset ∧
      (scanLoop ctx offset res).stoppedEarly =
        (scanLoop { ctx with f := g } offset res').stoppedEarly := by
  intro k
  induction k using Nat.strong_induction_on with
  | _ k ih =>
    intro offset res res' hk
    by_cases h : offset < ctx.stocks.length
    · have hlt : ctx.stocks.length - (offset + CHUNK_SIZE) < k := by
        simp only [CHUNK_SIZE]; omega
      have hrec := ih _ hlt (offset + CHUNK_SIZE)
        ((scan_stocks ctx.f ((ctx.stocks.drop offset).take CHUNK_SIZE) 9).foldl
          (fun acc r =>
            add_to_scan_results (toStockData ctx.now r) ctx.scan_type acc) res)
        ((scan_stocks g ((ctx.stocks.drop offset).take CHUNK_SIZE) 9).foldl
          (fun acc r =>
            add_to_scan_results (toStockData ctx.now r) ctx.scan_type acc) res')
        rfl
      refine ⟨?_, ?_, ?_, ?_⟩ <;>
      · conv_lhs => rw [scanLoop]
        conv_rhs => rw [scanLoop]
        by_cases hs : ctx.stopAfter offset
        · simp [dif_pos h, hs]
        · simp [dif_pos h, hs, hrec.1, hrec.2.1, hrec.2.2.1, hrec.2.2.2]
    · refine ⟨?_, ?_, ?_, ?_⟩ <;>
      · conv_lhs => rw [scanLoop]
        conv_rhs => rw [scanLoop]
        simp [h]

/-! ### C3 — offset advance per chunk -/

/-- Counterexample to C3 as stated: scanning 100 symbols with chunk size
30, the last chunk starts at 90 and holds 10 symbols, yet after it the
offset is 120 (`offset += CHUNK_SIZE`, render_bot.py line 268), not
90 + 10 = 100. -/
theorem chunk_offset_advance_cex :
    (run_chunked_scan false skipF stocks100 "scanall" 0 "t" noStop none
        defaultResults).chunks.getLast? = some (90, 10) ∧
    (run_chunked_scan false skipF stocks100 "scanall" 0 "t" noStop none
        defaultResults).finalOffset = 120 ∧
    90 + 10 ≠ 120 ∧
    (run_chunked_scan false skipF stocks100 "scanall" 0 "t" noStop none
        defaultResults).finalOffset ≠ 100 := by
  have h100 : stocks100.length = 100 := by simp [stocks100]
  have hns := scanLoop_no_stop ⟨skipF, stocks100, "scanall", "t", "t", 0, noStop⟩
    (fun _ => rfl) (stocks100.length - 0) 0 (emptyResults "scanall") rfl
  have hcs : chunkStarts stocks100.length 0 = [0, 30, 60, 90] := by
    rw [h100]; simp [chunkStarts, CHUNK_SIZE]
  have hmk : run_chunked_scan false skipF stocks100 "scanall" 0 "t" noStop none
      defaultResults =
      (let out := scanLoop ⟨skipF, stocks100, "scanall", "t", "t", 0, noStop⟩ 0
        (emptyResults "scanall")
       if out.stoppedEarly then
         ⟨true, out.stateFile, out.results, out.checkpoints, out.chunks,
           out.finalOffset⟩
       else
         ⟨true, none,
           { out.results with completed_at := some "t", total_scanned := stocks100.length },
           out.checkpoints, out.chunks, out.finalOffset⟩) := rfl
  rw [hcs] at hns
  rw [hmk]
  simp only [hns.1, hns.2.2.2.1, hns.2.2.2.2, Bool.false_eq_true, if_false]
  rw [h100]
  simp [CHUNK_SIZE]

/-- C3 as amended: the offset advances by `CHUNK_SIZE = 30` after every
chunk, including the short final one; chunks start at 0, 30, 60, 90, the
last chunk holds 10 symbols, and the loop ends with offset 120 (≥ total),
the checkpoint file being cleared on completion. -/
theorem chunk_offset_advance_amended :
    (run_chunked_scan false skipF stocks100 "scanall" 0 "t" noStop none
        defaultResults).chunks = [(0, 30), (30, 30), (60, 30), (90, 10)] ∧
    (run_chunked_scan false skipF stocks100 "scanall" 0 "t" noStop none
        defaultResults).checkpoints.map Checkpoint.offset = [0, 30, 60, 90] ∧
    (run_chunked_scan false skipF stocks100 "scanall" 0 "t" noStop none
        defaultResults).finalOffset = 120 ∧
    (run_chunked_scan false skipF stocks100 "scanall" 0 "t" noStop none
        defaultResults).returned = true ∧
    (run_chunked_scan false skipF stocks100 "scanall" 0 "t" noStop none
        defaultResults).stateFile = none := by
  have h100 : stocks100.length = 100 := by simp [stocks100]
  have hns := scanLoop_no_stop ⟨skipF, stocks100, "scanall", "t", "t", 0, noStop⟩
    (fun _ => rfl) (stocks100.length - 0) 0 (emptyResults "scanall") rfl
  have hcs : chunkStarts stocks100.length 0 = [0, 30, 60, 90] := by
    rw [h100]; simp [chunkStarts, CHUNK_SIZE]
  have hmk : run_chunked_scan false skipF stocks100 "scanall" 0 "t" noStop none
      defaultResults =
      (let out := scanLoop ⟨skipF, stocks100, "scanall", "t", "t", 0, noStop⟩ 0
        (emptyResults "scanall")
       if out.stoppedEarly then
         ⟨true, out.stateFile, out.results, out.checkpoints, out.chunks,
           out.finalOffset⟩
       else
         ⟨true, none,
           { out.results with completed_at := some "t", total_scanned := stocks100.length },
           out.checkpoints, out.chunks, out.finalOffset⟩) := rfl
  rw [hcs] at hns
  rw [hmk]
  simp only [hns.1, hns.2.1, hns.2.2.1, hns.2.2.2.1, hns.2.2.2.2,
    Bool.false_eq_true, if_false]
  rw [h100]
  simp [CHUNK_SIZE]

/-! ### C4 — resume from a matching checkpoint -/

/-- C4.  With a persisted checkpoint whose scan type matches the request
and whose offset is below the total, a fresh `run_chunked_scan` resumes at
the stored offset — the first checkpoint it writes carries exactly that
offset and the chunk starts walk on from it — and the result set is not
reset; with no matching checkpoint the result set is reset to empty and
the scan begins at offset 0. -/
theorem start_resumes_matching_checkpoint (f : String → SymbolOutcome)
    (stocks : List String) (scanType : String) (cid : ℕ) (now : String)
    (st : Checkpoint) (res : ScanResults)
    (hty : st.scan_type = scanType) (hoff : st.offset < stocks.length) :
    (run_chunked_scan false f stocks scanType cid now noStop (some st)
        res).checkpoints.map Checkpoint.offset =
      chunkStarts stocks.length st.offset ∧
    (run_chunked_scan false f stocks scanType cid now noStop (some st)
        res).checkpoints.head? =
      some ⟨scanType, st.offset, stocks.length, st.started_at, cid, false⟩ ∧
    (run_chunked_scan false skipF stocks scanType cid now noStop (some st)
        res).resultsFile.stocks = res.stocks ∧
    (∀ st' : Checkpoint, ¬(st'.scan_type = scanType ∧ st'.offset < stocks.length) →
      (run_chunked_scan false f stocks scanType cid now noStop (some st')
          res).checkpoints.map Checkpoint.offset =
        chunkStarts stocks.length 0 ∧
      (run_chunked_scan false skipF stocks scanType cid now noStop (some st')
          res).resultsFile.stocks = []) := by
  have hmk : ∀ (g : String → SymbolOutcome),
      (run_chunked_scan false g stocks scanType cid now noStop (some st) res) =
        (let out := scanLoop ⟨g, stocks, scanType, st.started_at, now, cid, noStop⟩
          st.offset res
         if out.stoppedEarly then
           ⟨true, out.stateFile, out.results, out.checkpoints, out.chunks,
             out.finalOffset⟩
         else
           ⟨true, none,
             { out.results with completed_at := some now, total_scanned := stocks.length },
             out.checkpoints, out.chunks, out.finalOffset⟩) := by
    intro g
    simp only [run_chunked_scan, Bool.false_eq_true, if_false,
      if_pos (And.intro hty hoff)]
  refine ⟨?_, ?_, ?_, ?_⟩
  · have hns := scanLoop_no_stop ⟨f, stocks, scanType, st.started_at, now, cid, noStop⟩
      (fun _ => rfl) (stocks.length - st.offset) st.offset res rfl
    rw [hmk f]
    simp only [hns.1, Bool.false_eq_true, if_false, hns.2.2.1, List.map_map]
    simp [Function.comp_def]
  · have hns := scanLoop_no_stop ⟨f, stocks, scanType, st.started_at, now, cid, noStop⟩
      (fun _ => rfl) (stocks.length - st.offset) st.offset res rfl
    rw [hmk f]
    simp only [hns.1, Bool.false_eq_true, if_false, hns.2.2.1]
    rw [chunkStarts, if_pos hoff]
    simp
  · have hns := scanLoop_no_stop ⟨skipF, stocks, scanType, st.started_at, now, cid, noStop⟩
      (fun _ => rfl) (stocks.length - st.offset) st.offset res rfl
    have hres := scanLoop_results_skip
      ⟨skipF, stocks, scanType, st.started_at, now, cid, noStop⟩
      (fun _ => rfl) (stocks.length - st.offset) st.offset res rfl
    rw [hmk skipF]
    simp only [hns.1, Bool.false_eq_true, if_false, hres]
  · intro st' hnm
    have hmk' : ∀ (g : String → SymbolOutcome),
        (run_chunked_scan false g stocks scanType cid now noStop (some st') res) =
          (let out := scanLoop ⟨g, stocks, scanType, st'.started_at, now, cid, noStop⟩
            0 (emptyResults scanType)
           if out.stoppedEarly then
             ⟨true, out.stateFile, out.results, out.checkpoints, out.chunks,
               out.finalOffset⟩
           else
             ⟨true, none,
               { out.results with completed_at := some now, total_scanned := stocks.length },
               out.checkpoints, out.chunks, out.finalOffset⟩) := by
      intro g
      simp only [run_chunked_scan, Bool.false_eq_true, if_false, if_neg hnm]
    constructor
    · have hns := scanLoop_no_stop ⟨f, stocks, scanType, st'.started_at, now, cid, noStop⟩
        (fun _ => rfl) (stocks.length - 0) 0 (emptyResults scanType) rfl
      rw [hmk' f]
      simp only [hns.1, Bool.false_eq_true, if_false, hns.2.2.1, List.map_map]
      simp [Function.comp_def]
    · have hns := scanLoop_no_stop ⟨skipF, stocks, scanType, st'.started_at, now, cid, noStop⟩
        (fun _ => rfl) (stocks.length - 0) 0 (emptyResults scanType) rfl
      have hres := scanLoop_results_skip
        ⟨skipF, stocks, scanType, st'.started_at, now, cid, noStop⟩
        (fun _ => rfl) (stocks.length - 0) 0 (emptyResults scanType) rfl
      rw [hmk' skipF]
      simp only [hns.1, Bool.false_eq_true, if_false, hres]
      simp [emptyResults]

/-- Witness for C4: restarting with the persisted offset-60 checkpoint
resumes at 60 (then 90) — not 0 and not 90 first — and keeps the stored
result set. -/
theorem start_resumes_matching_checkpoint_witness :
    (run_chunked_scan false skipF stocks100 "scanall" 7 "t1" noStop
        (some stW60) resW).checkpoints.map Checkpoint.offset = [60, 90] ∧
    (run_chunked_scan false skipF stocks100 "scanall" 7 "t1" noStop
        (some stW60) resW).resultsFile.stocks = [stockW] := by
  have h := start_resumes_matching_checkpoint skipF stocks100 "scanall" 7 "t1"
    stW60 resW rfl (by simp [stocks100, stW60])
  refine ⟨?_, ?_⟩
  · rw [h.1]
    have : stocks100.length = 100 := by simp [stocks100]
    rw [this]
    simp [stW60, chunkStarts, CHUNK_SIZE]
  · rw [h.2.2.1]
    simp [resW]

/-! ### C7 — per-symbol failures are skipped, never aborting -/

/-- Collected results are unchanged when the symbols whose evaluation
fails or returns nothing are removed from the universe. -/
lemma scanFold_filter_isOk (f : String → SymbolOutcome) (m : ℕ) :
    ∀ symbols : List String,
      (scanFold f m (symbols.filter fun s => (f s).isOk)).2 =
        (scanFold f m symbols).2 := by
  intro symbols
  induction symbols with
  | nil => rfl
  | cons s rest ih =>
    cases hfs : f s with
    | ok r => simp [List.filter_cons, scanFold, hfs, ih]
    | noResult => simp [List.filter_cons, scanFold, hfs, ih]
    | err e => simp [List.filter_cons, scanFold, hfs, ih]

/-- C7.  Every symbol of the universe is processed (logged) exactly once
regardless of per-symbol outcomes; failing or empty evaluations contribute
nothing and removing them changes nothing; and the chunk loop walks the
same chunks whatever the per-symbol outcomes are — no failure aborts a
chunk or the scan. -/
theorem per_symbol_errors_skipped (f : String → SymbolOutcome)
    (symbols : List String) (minScore : ℕ) :
    (scanFold f minScore symbols).1 = symbols ∧
    scan_stocks f symbols minScore =
      scan_stocks f (symbols.filter fun s => (f s).isOk) minScore ∧
    (∀ (g : String → SymbolOutcome) (stocks : List String) (scanType : String)
        (cid : ℕ) (now : String) (stopAfter : ℕ → Bool) (res res' : ScanResults),
      (run_chunked_scan false f stocks scanType cid now stopAfter none res).chunks =
        (run_chunked_scan false g stocks scanType cid now stopAfter none
          res').chunks) := by
  refine ⟨?_, ?_, ?_⟩
  · induction symbols with
    | nil => rfl
    | cons s rest ih => cases hfs : f s <;> simp [scanFold, hfs, ih]
  · unfold scan_stocks
    rw [scanFold_filter_isOk]
  · intro g stocks scanType cid now stopAfter res res'
    have htr := scanLoop_trace_indep ⟨f, stocks, scanType, now, now, cid, stopAfter⟩
      g (stocks.length - 0) 0 (emptyResults scanType) (emptyResults scanType) rfl
    simp only [run_chunked_scan, Bool.false_eq_true, if_false]
    rcases hse : (scanLoop ⟨f, stocks, scanType, now, now, cid, stopAfter⟩ 0
        (emptyResults scanType)).stoppedEarly with _ | _
    all_goals rw [hse] at htr
    all_goals simp only [hse, ← htr.2.2.2, htr.1, Bool.false_eq_true, if_false]
    all_goals try (split <;> simp [htr.1])

/-! ### A concrete 222-session history

`hist222` has 200-day SMA 88 twenty-two sessions ago and 90 today:
the first 200 closes are 88, the next 21 are 106 and the last is 110. -/

lemma hist222_length : hist222.length = 222 := by
  rw [hist222, List.length_append, List.length_append, List.length_replicate,
    List.length_replicate]
  rfl

/-- Current 200-day SMA of `hist222`: (178·88 + 21·106 + 110)/200 = 90. -/
lemma smaAt_hist222_last : smaAt hist222 200 221 = 90 := by
  rw [smaAt, show (221:ℕ) + 1 = 222 from rfl,
    List.take_of_length_le (by rw [hist222_length]),
    show (222:ℕ) - 200 = 22 from rfl, hist222,
    List.drop_append_of_le_length (by rw [List.length_replicate]; norm_num),
    List.drop_replicate, List.sum_append, List.sum_append, List.sum_replicate,
    List.sum_replicate, List.sum_cons, List.sum_nil]
  norm_num

/-- 200-day SMA of `hist222` twenty-two sessions earlier: 88. -/
lemma smaAt_hist222_past : smaAt hist222 200 199 = 88 := by
  rw [smaAt, show (199:ℕ) + 1 = 200 from rfl,
    show (200:ℕ) - 200 = 0 from rfl, List.drop_zero, hist222,
    List.take_append_of_le_length (by rw [List.length_replicate]),
    List.take_replicate, show (200:ℕ) ⊓ 200 = 200 from rfl,
    List.sum_replicate]
  norm_num

/-- Criterion 4 holds on `hist222`: the 200-day SMA rose from 88 to 90 over
the default 22-session lookback. -/
lemma hist222_trending : is_sma_trending_up hist222 200 22 = true := by
  rw [is_sma_trending_up, if_neg (by rw [hist222_length]; norm_num),
    hist222_length, show (222:ℕ) - 1 = 221 from rfl,
    show (221:ℕ) - 22 = 199 from rfl, smaAt_hist222_last, smaAt_hist222_past]
  norm_num

lemma criteria_infoA :
    criteriaList infoA hist222 100 95 90 =
      [true, true, true, true, true, true, true, true, true] := by
  rw [criteriaList, MIN_200_SMA_UPTREND_DAYS, hist222_trending]
  norm_num [infoA, MIN_PERCENT_ABOVE_52W_LOW, MAX_PERCENT_FROM_52W_HIGH]

lemma criteria_infoB :
    criteriaList infoB hist222 100 95 90 =
      [true, true, true, true, true, true, true, true, true] := by
  rw [criteriaList, MIN_200_SMA_UPTREND_DAYS, hist222_trending]
  norm_num [infoB, MIN_PERCENT_ABOVE_52W_LOW, MAX_PERCENT_FROM_52W_HIGH]

/-! ### C2 — the nine criteria, their order, score and passesAll -/

/-- C2.  For every snapshot with sufficient data the nine criteria are
exactly the stated comparisons in the stated order — strict `>` for 1–7,
`≥ 30` for 8 and `≤ 25` for 9 on unrounded percentages — the score counts
the true criteria, and `passes_all` holds iff the score is 9. -/
theorem nine_criteria_ordered (symbol : String) (info : StockInfo)
    (hist : List ℚ) (s50 s150 s200 : ℚ)
    (h50 : info.sma_50 = some s50) (h150 : info.sma_150 = some s150)
    (h200 : info.sma_200 = some s200) (hlen : 200 ≤ hist.length) :
    ∃ r, check_trend_template symbol info hist = some r ∧
      r.criteria =
        [ decide (info.current_price > s150),
          decide (info.current_price > s200),
          decide (s150 > s200),
          is_sma_trending_up hist 200 22,
          decide (s50 > s150),
          decide (s50 > s200),
          decide (info.current_price > s50),
          decide (((info.current_price - info.week_52_low) / info.week_52_low)
            * 100 ≥ 30),
          decide (((info.week_52_high - info.current_price) / info.week_52_high)
            * 100 ≤ 25) ] ∧
      r.score = r.criteria.count true ∧
      (r.passes_all = true ↔ r.score = 9) := by
  refine ⟨buildResult symbol info hist s50 s150 s200, ?_, rfl, rfl, ?_⟩
  · unfold check_trend_template
    rw [if_neg (by omega), h50, h150, h200]
  · show (criteriaList info hist s50 s150 s200).all id = true ↔
      (criteriaList info hist s50 s150 s200).count true = 9
    have hlen9 : (criteriaList info hist s50 s150 s200).length = 9 := rfl
    rw [← hlen9]
    constructor
    · intro hall
      exact List.count_eq_length.mpr
        (fun b hb => ((List.all_eq_true.mp hall) b hb).symm)
    · intro hcnt
      exact List.all_eq_true.mpr
        (fun b hb => (List.count_eq_length.mp hcnt b hb).symm)

/-- Witness for C2 on the spec scenario — price 110, SMAs 100/95/90,
200-day SMA 88 twenty-two sessions ago, 52-week range 80–120: all nine
criteria hold, the score is 9 and `passes_all` is true. -/
theorem nine_criteria_ordered_witness :
    ∃ r, check_trend_template "A" infoA hist222 = some r ∧
      r.criteria = [true, true, true, true, true, true, true, true, true] ∧
      r.score = 9 ∧ r.passes_all = true := by
  obtain ⟨r, hr, hc, hs, hp⟩ := nine_criteria_ordered "A" infoA hist222 100 95 90
    rfl rfl rfl (by rw [hist222_length]; norm_num)
  have hc9 : r.criteria = [true, true, true, true, true, true, true, true, true] := by
    rw [hc]
    have := criteria_infoA
    rw [criteriaList, MIN_200_SMA_UPTREND_DAYS] at this
    exact this
  have hs9 : r.score = 9 := by rw [hs, hc9]; rfl
  exact ⟨r, hr, hc9, hs9, hp.mpr hs9⟩

/-! ### C9 — criterion 4, lookback and short histories -/

/-- C9.  Criterion 4 is `is_sma_trending_up` with period 200 and the
default 22-session lookback: when the history is shorter than 222 sessions
it evaluates to false rather than failing, evaluation still returns a full
nine-criterion result with its score, and with enough history it compares
the current 200-day SMA against the one 22 sessions earlier. -/
theorem criterion4_lookback (symbol : String) (info : StockInfo)
    (hist : List ℚ) (s50 s150 s200 : ℚ)
    (h50 : info.sma_50 = some s50) (h150 : info.sma_150 = some s150)
    (h200 : info.sma_200 = some s200) (hlen : 200 ≤ hist.length) :
    ∃ r, check_trend_template symbol info hist = some r ∧
      r.criteria[3]? = some (is_sma_trending_up hist 200 22) ∧
      (hist.length < 222 → r.criteria[3]? = some false) ∧
      (222 ≤ hist.length →
        (r.criteria[3]? = some true ↔
          smaAt hist 200 (hist.length - 1 - 22) < smaAt hist 200 (hist.length - 1))) ∧
      r.criteria.length = 9 ∧
      r.score = r.criteria.count true := by
  refine ⟨buildResult symbol info hist s50 s150 s200, ?_, rfl, ?_, ?_, rfl, rfl⟩
  · unfold check_trend_template
    rw [if_neg (by omega), h50, h150, h200]
  · intro hshort
    show some (is_sma_trending_up hist 200 22) = some false
    rw [is_sma_trending_up, if_pos (by omega)]
  · intro hlong
    show some (is_sma_trending_up hist 200 22) = some true ↔ _
    rw [is_sma_trending_up, if_neg (by omega)]
    simp [gt_iff_lt]

lemma hist200_length : hist200.length = 200 := by
  rw [hist200, List.length_replicate]

/-- Witness for C9: with exactly 200 sessions, evaluation succeeds with all
nine criteria and criterion 4 is false. -/
theorem criterion4_lookback_witness :
    ∃ r, check_trend_template "A" infoA hist200 = some r ∧
      r.criteria[3]? = some false ∧ r.criteria.length = 9 := by
  obtain ⟨r, hr, _, hshort, _, hlen9, _⟩ := criterion4_lookback "A" infoA hist200
    100 95 90 rfl rfl rfl (by rw [hist200_length])
  exact ⟨r, hr, hshort (by rw [hist200_length]; norm_num), hlen9⟩


/-! ### C10 — scan results: content and order -/

/-- Membership in the collected results of the scan loop. -/
lemma mem_scanFold (f : String → SymbolOutcome) (m : ℕ) :
    ∀ (l : List String) (r : TrendTemplateResult),
      r ∈ (scanFold f m l).2 ↔
        ∃ s ∈ l, f s = SymbolOutcome.ok r ∧ m ≤ r.score := by
  intro l
  induction l with
  | nil => intro r; simp [scanFold]
  | cons s rest ih =>
    intro r
    cases hfs : f s with
    | ok r' =>
      simp only [scanFold, hfs]
      split_ifs with hsc
      · simp only [List.mem_cons, ih]
        constructor
        · rintro (rfl | ⟨s', hs', hok, hsc'⟩)
          · exact ⟨s, Or.inl rfl, hfs, hsc⟩
          · exact ⟨s', Or.inr hs', hok, hsc'⟩
        · rintro ⟨s', (rfl | hs'), hok, hsc'⟩
          · rw [hfs] at hok
            exact Or.inl (SymbolOutcome.ok.inj hok).symm
          · exact Or.inr ⟨s', hs', hok, hsc'⟩
      · rw [ih]
        constructor
        · rintro ⟨s', hs', hok, hsc'⟩
          exact ⟨s', List.mem_cons_of_mem s hs', hok, hsc'⟩
        · rintro ⟨s', hs', hok, hsc'⟩
          rcases List.mem_cons.mp hs' with rfl | hs''
          · rw [hfs] at hok
            obtain rfl := (SymbolOutcome.ok.inj hok)
            exact absurd hsc' hsc
          · exact ⟨s', hs'', hok, hsc'⟩
    | noResult =>
      simp only [scanFold, hfs, ih]
      constructor
      · rintro ⟨s', hs', hok, hsc'⟩
        exact ⟨s', List.mem_cons_of_mem s hs', hok, hsc'⟩
      · rintro ⟨s', hs', hok, hsc'⟩
        rcases List.mem_cons.mp hs' with rfl | hs''
        · rw [hfs] at hok
          cases hok
        · exact ⟨s', hs'', hok, hsc'⟩
    | err e =>
      simp only [scanFold, hfs, ih]
      constructor
      · rintro ⟨s', hs', hok, hsc'⟩
        exact ⟨s', List.mem_cons_of_mem s hs', hok, hsc'⟩
      · rintro ⟨s', hs', hok, hsc'⟩
        rcases List.mem_cons.mp hs' with rfl | hs''
        · rw [hfs] at hok
          cases hok
        · exact ⟨s', hs'', hok, hsc'⟩

/-- C10 as amended.  `scan_stocks` returns a permutation of exactly the
successfully evaluated results with `score ≥ min_score`; the output is
sorted by score descending, ties broken by the smaller stored
`pct_from_52w_high` metric (the 2-decimal-rounded percent-from-high) first,
equal keys keeping their evaluation order (both sorts are stable). -/
theorem scan_results_sorted (f : String → SymbolOutcome)
    (symbols : List String) (minScore : ℕ) :
    (scan_stocks f symbols minScore).Perm (scanFold f minScore symbols).2 ∧
    List.Sorted resultBefore (scan_stocks f symbols minScore) ∧
    (∀ r, r ∈ scan_stocks f symbols minScore ↔
      ∃ s ∈ symbols, f s = SymbolOutcome.ok r ∧ minScore ≤ r.score) := by
  refine ⟨List.perm_insertionSort _ _, List.sorted_insertionSort _ _, fun r => ?_⟩
  rw [show scan_stocks f symbols minScore =
    List.insertionSort resultBefore (scanFold f minScore symbols).2 from rfl]
  rw [(List.perm_insertionSort resultBefore _).mem_iff]
  exact mem_scanFold f minScore symbols r

lemma checkA : check_trend_template "A" infoA hist222 = some resultA := by
  unfold check_trend_template resultA
  rw [if_neg (by rw [hist222_length]; norm_num)]
  rfl

lemma checkB : check_trend_template "B" infoB hist222 = some resultB := by
  unfold check_trend_template resultB
  rw [if_neg (by rw [hist222_length]; norm_num)]
  rfl

set_option maxRecDepth 4000 in
lemma scoreA : resultA.score = 9 := by
  show (criteriaList infoA hist222 100 95 90).count true = 9
  rw [criteria_infoA]
  rfl

set_option maxRecDepth 4000 in
lemma scoreB : resultB.score = 9 := by
  show (criteriaList infoB hist222 100 95 90).count true = 9
  rw [criteria_infoB]
  rfl

lemma round2_25_3 : round2 (25/3) = 833/100 := by
  have h1 : (25/3 : ℚ) * 100 = 2500/3 := by norm_num
  have hf : ⌊(2500/3 : ℚ)⌋ = 833 := by norm_num
  rw [round2, h1, pyRoundInt, hf, if_neg (by norm_num), round_eq]
  norm_num

lemma round2_4999_600 : round2 (4999/600) = 833/100 := by
  have h1 : (4999/600 : ℚ) * 100 = 4999/6 := by norm_num
  have hf : ⌊(4999/6 : ℚ)⌋ = 833 := by norm_num
  rw [round2, h1, pyRoundInt, hf, if_neg (by norm_num), round_eq]
  norm_num

lemma pctA : resultA.pct_from_52w_high = 833/100 := by
  show round2 (((120:ℚ) - 110) / 120 * 100) = 833/100
  rw [show ((120:ℚ) - 110) / 120 * 100 = 25/3 by norm_num, round2_25_3]

lemma pctB : resultB.pct_from_52w_high = 833/100 := by
  show round2 (((120:ℚ) - 55001/500) / 120 * 100) = 833/100
  rw [show ((120:ℚ) - 55001/500) / 120 * 100 = 4999/600 by norm_num,
    round2_4999_600]

/-- Counterexample to C10 as stated: with equal scores, the scan ranks `A`
(percent distance 25/3 ≈ 8.3333) before `B` (4999/600 ≈ 8.3317) although
`B` is strictly closer to its 52-week high — the code ties on the 2-decimal
rounded metric (8.33 for both) and keeps evaluation order, so ties are not
broken by the true percent distance. -/
theorem scan_tiebreak_cex :
    (scan_stocks oracleAB ["A", "B"] 9).map TrendTemplateResult.symbol =
      ["A", "B"] ∧
    (scan_stocks oracleAB ["A", "B"] 9).map TrendTemplateResult.score = [9, 9] ∧
    (scan_stocks oracleAB ["A", "B"] 9).map specPctFromHigh =
      [25/3, 4999/600] ∧
    (4999/600 : ℚ) < 25/3 := by
  have hA : oracleAB "A" = SymbolOutcome.ok resultA := by
    simp [oracleAB, checkA, outcomeOf]
  have hB : oracleAB "B" = SymbolOutcome.ok resultB := by
    simp [oracleAB, checkB, outcomeOf]
  have hfold : scanFold oracleAB 9 ["A", "B"] = (["A", "B"], [resultA, resultB]) := by
    simp [scanFold, hA, hB, scoreA, scoreB]
  have hbef : resultBefore resultA resultB :=
    Or.inr ⟨by rw [scoreA, scoreB], by rw [pctA, pctB]⟩
  have hscan : scan_stocks oracleAB ["A", "B"] 9 = [resultA, resultB] := by
    show List.insertionSort resultBefore (scanFold oracleAB 9 ["A", "B"]).2 =
      [resultA, resultB]
    rw [hfold]
    simp [List.insertionSort, List.orderedInsert, hbef]
  rw [hscan]
  refine ⟨rfl, ?_, ?_, by norm_num⟩
  · rw [List.map_cons, List.map_cons, List.map_nil, scoreA, scoreB]
  · rw [List.map_cons, List.map_cons, List.map_nil,
      show specPctFromHigh resultA = 25/3 by
        show ((120:ℚ) - 110) / 120 * 100 = 25/3
        norm_num,
      show specPctFromHigh resultB = 4999/600 by
        show ((120:ℚ) - 55001/500) / 120 * 100 = 4999/600
        norm_num]

end Minervini
